import Mathlib

/-!
Verification of the driver-portal server (Express + SQLite app) against its
specification. The source of truth is `server.js` (registration, login,
session handling, submission create/edit with file replacement, multer
file-intake) and `db.js` (two tables: users, submissions).

The embedding models:
 - the SQLite store as Lean lists of rows (`users`, `submissions`);
 - the uploads directories as lists of stored filenames
   (`replayFiles`, `telemetryFiles`);
 - each HTTP handler as a pure function from state and request data to a
   new state and a response value;
 - JavaScript string falsiness (`!x` on a form field) as equality with `""`.

bcrypt is an external library, out of scope per the spec; it is modelled as
an injective tagging scheme such that compare succeeds exactly on the
password that was hashed, which is the contract the handlers rely on.
-/

/-- A row of the `users` table (db.js): id, name, email, password_hash,
role, created_at. -/
structure User where
  id : Nat
  name : String
  email : String
  password_hash : String
  role : String
  created_at : Nat
deriving DecidableEq

/-- A row of the `submissions` table (db.js). `telemetry_files` is stored
as a serialized JSON list of filenames; it is modelled in deserialized form
as a list of strings. `is_protest` is an INTEGER column (0 or 1). -/
structure Submission where
  id : Nat
  user_id : Nat
  race_date : String
  race_time : String
  series : String
  is_protest : Nat
  protest_text : Option String
  replay_file : Option String
  telemetry_files : List String
  created_at : Nat
deriving DecidableEq

/-- The session record written by the login handler:
`req.session.user = \x7b id, name, role, email \x7d`. -/
structure SessionUser where
  id : Nat
  name : String
  role : String
  email : String
deriving DecidableEq

/-- Whole-server state: the two tables plus the two upload directories
(modelled as the lists of filenames currently stored on disk). -/
structure ServerState where
  users : List User
  submissions : List Submission
  replayFiles : List String
  telemetryFiles : List String
deriving DecidableEq

/-- JavaScript `a || b` for an optional environment string: the default is
used when the variable is unset or empty (falsy). -/
def jsOr (v : Option String) (d : String) : String :=
  match v with
  | none => d
  | some s => if s = "" then d else s

/-- The configured registration secret:
`process.env.ADMIN_CODE || 'admin123'`. -/
def adminCodeConfig (envAdminCode : Option String) : String :=
  jsOr envAdminCode "admin123"

/-- Model of `bcrypt.hash(password, 10)` (external library): an injective
tag of the password. -/
def bcryptHash (password : String) : String :=
  "bcrypt$" ++ password

/-- Model of `bcrypt.compare(password, stored)` (external library):
succeeds exactly when `stored` is the hash of `password`. -/
def bcryptCompare (password stored : String) : Bool :=
  stored == bcryptHash password

/-- AUTOINCREMENT id for a fresh users row: strictly larger than every
existing id. -/
def nextUserId (users : List User) : Nat :=
  users.foldl (fun m u => max m u.id) 0 + 1

/-- AUTOINCREMENT id for a fresh submissions row. -/
def nextSubmissionId (subs : List Submission) : Nat :=
  subs.foldl (fun m s => max m s.id) 0 + 1

/-- Response of POST /register: re-render with a validation message,
re-render with the conflict message, or redirect to /login. -/
inductive RegisterResponse
  | validationError
  | conflictError
  | redirectLogin
deriving DecidableEq

/-- POST /register: requires name, email, password non-empty (JS falsiness);
computes the role from the admin code; inserts the user, turning a
uniqueness violation on email into the conflict response. -/
def postRegister (envAdminCode : Option String) (st : ServerState) (now : Nat)
    (name email password admin_code : String) :
    ServerState × RegisterResponse :=
  if name = "" ∨ email = "" ∨ password = "" then
    (st, RegisterResponse.validationError)
  else
    let role :=
      if admin_code ≠ "" ∧ admin_code = adminCodeConfig envAdminCode
      then "admin" else "driver"
    if st.users.any (fun u => u.email == email) then
      (st, RegisterResponse.conflictError)
    else
      ({ st with users := st.users ++
          [{ id := nextUserId st.users, name := name, email := email,
             password_hash := bcryptHash password, role := role,
             created_at := now }] },
       RegisterResponse.redirectLogin)

/-- Response of POST /login: re-render the login form with an error
message, or redirect to the dashboard. -/
inductive LoginResponse
  | renderLogin (error : String)
  | redirectDashboard
deriving DecidableEq

/-- Lookup used by the login handler:
`SELECT * FROM users WHERE email = ?` via db.get (first matching row). -/
def findUserByEmail (users : List User) (email : String) : Option User :=
  users.find? (fun u => u.email == email)

/-- The session record built from a users row on successful login. -/
def sessionOf (u : User) : SessionUser :=
  { id := u.id, name := u.name, role := u.role, email := u.email }

/-- POST /login: look up by email; absent user and failed hash comparison
both produce the identical generic response; on success the session user is
set to exactly id, name, role, email of the row. -/
def postLogin (st : ServerState) (sess : Option SessionUser)
    (email password : String) : Option SessionUser × LoginResponse :=
  match findUserByEmail st.users email with
  | none => (sess, LoginResponse.renderLogin "Invalid credentials.")
  | some u =>
    if bcryptCompare password u.password_hash then
      (some (sessionOf u), LoginResponse.redirectDashboard)
    else
      (sess, LoginResponse.renderLogin "Invalid credentials.")

/-- The multipart form body shared by POST /submit and POST /edit/:id.
`is_protest` models checkbox truthiness; `protest_text` is the raw form
field (empty means absent, per JS falsiness). -/
structure SubmitBody where
  race_date : String
  race_time : String
  series : String
  is_protest : Bool
  protest_text : String
deriving DecidableEq

/-- The generated filenames produced by the multer file intake before the
handler runs: at most one replay, at most five telemetry files, in upload
order. -/
structure UploadedFiles where
  replay : Option String
  telemetry : List String
deriving DecidableEq

/-- Responses of POST /submit and POST /edit/:id. -/
inductive SubmitResponse
  | notFound
  | validationError
  | redirectDashboard
deriving DecidableEq

/-- Lookup used by the edit handlers:
`SELECT * FROM submissions WHERE id = ? AND user_id = ?` via db.get. -/
def findSubmission (subs : List Submission) (sid uid : Nat) : Option Submission :=
  subs.find? (fun s => s.id == sid && s.user_id == uid)

/-- Deletion of one file from a directory:
`if (fs.existsSync(p)) fs.unlinkSync(p)`. -/
def deleteFromDisk (disk : List String) (name : String) : List String :=
  disk.filter (fun f => f ≠ name)

/-- The multer middleware stores every uploaded file on disk (under its
per-kind directory) before the route handler runs. -/
def storeUploads (st : ServerState) (files : UploadedFiles) : ServerState :=
  { st with
    replayFiles := st.replayFiles ++ files.replay.toList,
    telemetryFiles := st.telemetryFiles ++ files.telemetry }

/-- POST /submit: validates the three required fields, then inserts a new
submissions row owned by the session user, with the replay filename (or
NULL) and the telemetry filename list in upload order. -/
def postSubmit (st : ServerState) (sess : SessionUser) (now : Nat)
    (body : SubmitBody) (files : UploadedFiles) :
    ServerState × SubmitResponse :=
  let st0 := storeUploads st files
  if body.race_date = "" ∨ body.race_time = "" ∨ body.series = "" then
    (st0, SubmitResponse.validationError)
  else
    ({ st0 with submissions := st0.submissions ++
        [{ id := nextSubmissionId st0.submissions,
           user_id := sess.id,
           race_date := body.race_date,
           race_time := body.race_time,
           series := body.series,
           is_protest := if body.is_protest then 1 else 0,
           protest_text := if body.protest_text = "" then none
                           else some body.protest_text,
           replay_file := files.replay,
           telemetry_files := files.telemetry,
           created_at := now }] },
     SubmitResponse.redirectDashboard)

/-- The SET clause of the persisting UPDATE of POST /edit/:id: rewrites
race_date, race_time, series, is_protest, protest_text, replay_file and
telemetry_files of a row, leaving id, user_id and created_at alone. -/
def updateSubmissionRow (body : SubmitBody) (replayPath : Option String)
    (telem : List String) (s : Submission) : Submission :=
  { s with
    race_date := body.race_date,
    race_time := body.race_time,
    series := body.series,
    is_protest := if body.is_protest then 1 else 0,
    protest_text := if body.protest_text = "" then none
                    else some body.protest_text,
    replay_file := replayPath,
    telemetry_files := telem }

/-- The persisting UPDATE of POST /edit/:id, keyed by the compound
predicate `WHERE id = ? AND user_id = ?`. -/
def runUpdate (subs : List Submission) (sid uid : Nat) (body : SubmitBody)
    (replayPath : Option String) (telem : List String) : List Submission :=
  subs.map (fun s =>
    if s.id == sid && s.user_id == uid
    then updateSubmissionRow body replayPath telem s
    else s)

/-- POST /edit/:id: multer stores the uploads, the handler checks ownership
via the compound lookup (404 otherwise), validates the required fields,
replaces the replay file and the telemetry set exactly when new ones were
uploaded (deleting the superseded files from disk), and persists via the
compound-keyed UPDATE. -/
def postEdit (st : ServerState) (sess : SessionUser) (sid : Nat)
    (body : SubmitBody) (files : UploadedFiles) :
    ServerState × SubmitResponse :=
  let st0 := storeUploads st files
  match findSubmission st0.submissions sid sess.id with
  | none => (st0, SubmitResponse.notFound)
  | some ex =>
    if body.race_date = "" ∨ body.race_time = "" ∨ body.series = "" then
      (st0, SubmitResponse.validationError)
    else
      let replayPath :=
        match files.replay with
        | some newName => some newName
        | none => ex.replay_file
      let replayDisk :=
        match files.replay with
        | some _ =>
          match ex.replay_file with
          | some old => deleteFromDisk st0.replayFiles old
          | none => st0.replayFiles
        | none => st0.replayFiles
      let telem :=
        if files.telemetry.isEmpty then ex.telemetry_files
        else files.telemetry
      let telemDisk :=
        if files.telemetry.isEmpty then st0.telemetryFiles
        else ex.telemetry_files.foldl deleteFromDisk st0.telemetryFiles
      ({ st0 with
          replayFiles := replayDisk,
          telemetryFiles := telemDisk,
          submissions :=
            runUpdate st0.submissions sid sess.id body replayPath telem },
       SubmitResponse.redirectDashboard)

/-- POST /admin/users/:id/make-admin:
`UPDATE users SET role = 'admin' WHERE id = ?`. -/
def makeAdminOp (st : ServerState) (target : Nat) : ServerState :=
  { st with users := st.users.map (fun u =>
      if u.id == target then { u with role := "admin" } else u) }

/-- The state-changing POST requests of the server, used to quantify over
every operation. -/
inductive Request
  | register (name email password admin_code : String)
  | login (email password : String)
  | logout
  | submit (body : SubmitBody) (files : UploadedFiles)
  | edit (sid : Nat) (body : SubmitBody) (files : UploadedFiles)
  | makeAdmin (target : Nat)

/-- One request dispatched through the middleware stack: requireAuth
redirects when no session user is present (state untouched), requireAdmin
additionally demands role admin; only the login and logout handlers ever
write the session. -/
def step (envAdminCode : Option String) (now : Nat) (st : ServerState)
    (sess : Option SessionUser) (r : Request) :
    ServerState × Option SessionUser :=
  match r with
  | Request.register n e p a =>
    ((postRegister envAdminCode st now n e p a).1, sess)
  | Request.login e p => (st, (postLogin st sess e p).1)
  | Request.logout => (st, none)
  | Request.submit body files =>
    match sess with
    | none => (st, none)
    | some u => ((postSubmit st u now body files).1, sess)
  | Request.edit sid body files =>
    match sess with
    | none => (st, none)
    | some u => ((postEdit st u sid body files).1, sess)
  | Request.makeAdmin target =>
    match sess with
    | none => (st, none)
    | some u =>
      if u.role = "admin" then (makeAdminOp st target, sess) else (st, sess)

/-- Sample users row: Alice, a driver. -/
def aliceRow : User :=
  { id := 1, name := "Alice", email := "a@x.com",
    password_hash := bcryptHash "pw1", role := "driver", created_at := 10 }

/-- Sample users row: Bob, an admin. -/
def bobRow : User :=
  { id := 2, name := "Bob", email := "b@x.com",
    password_hash := bcryptHash "pw2", role := "admin", created_at := 11 }

/-- Sample submissions row owned by Alice, with a replay and two telemetry
files attached. -/
def aliceSubmission : Submission :=
  { id := 1, user_id := 1, race_date := "2024-01-01", race_time := "14:00",
    series := "GT3", is_protest := 0, protest_text := none,
    replay_file := some "10-old.rpy",
    telemetry_files := ["10-t1.csv", "10-t2.csv"], created_at := 10 }

/-- Sample submissions row owned by Bob. -/
def bobSubmission : Submission :=
  { id := 2, user_id := 2, race_date := "2024-02-02", race_time := "15:00",
    series := "LMP2", is_protest := 1, protest_text := some "contact",
    replay_file := none, telemetry_files := [], created_at := 11 }

/-- Sample server state with two users, two submissions and the attached
files on disk. -/
def sampleState : ServerState :=
  { users := [aliceRow, bobRow],
    submissions := [aliceSubmission, bobSubmission],
    replayFiles := ["10-old.rpy"],
    telemetryFiles := ["10-t1.csv", "10-t2.csv"] }

/-- Sample valid edit form body. -/
def sampleBody : SubmitBody :=
  { race_date := "2024-03-03", race_time := "16:00", series := "GT4",
    is_protest := false, protest_text := "" }

/-- Sample uploads carrying a new replay and one new telemetry file. -/
def newFiles : UploadedFiles :=
  { replay := some "20-lap.rpy", telemetry := ["20-t3.csv"] }

/-- Sample empty uploads (no file of either kind). -/
def noFiles : UploadedFiles :=
  { replay := none, telemetry := [] }

/-- C5: for every registration with non-empty name, email and password that
actually persists a user (no duplicate email), the stored row's role is
admin exactly when the supplied admin code is non-empty and equals the
configured secret, and driver otherwise. -/
theorem register_role_assignment (env : Option String) (st : ServerState)
    (now : Nat) (name email password admin_code : String)
    (hn : name ≠ "") (he : email ≠ "") (hp : password ≠ "")
    (hdup : st.users.any (fun u => u.email == email) = false) :
    ∃ u : User,
      (postRegister env st now name email password admin_code).1.users
        = st.users ++ [u] ∧
      (u.role = "admin" ↔ admin_code ≠ "" ∧ admin_code = adminCodeConfig env) ∧
      (¬(admin_code ≠ "" ∧ admin_code = adminCodeConfig env) →
        u.role = "driver") := by
  refine ⟨{ id := nextUserId st.users, name := name, email := email,
            password_hash := bcryptHash password,
            role := if admin_code ≠ "" ∧ admin_code = adminCodeConfig env
                    then "admin" else "driver",
            created_at := now }, ?_, ?_, ?_⟩
  · simp [postRegister, hn, he, hp, hdup]
  · by_cases hc : admin_code ≠ "" ∧ admin_code = adminCodeConfig env <;>
      simp [hc]
  · intro hc
    simp [hc]

/-- C5 witness: registering with the default secret as admin code yields an
admin row. -/
theorem register_role_assignment_witness :
    ∃ u : User,
      (postRegister none sampleState 20 "Cara" "c@x.com" "pw3" "admin123").1.users
        = sampleState.users ++ [u] ∧
      (u.role = "admin" ↔ "admin123" ≠ "" ∧ "admin123" = adminCodeConfig none) ∧
      (¬("admin123" ≠ "" ∧ "admin123" = adminCodeConfig none) →
        u.role = "driver") :=
  register_role_assignment none sampleState 20 "Cara" "c@x.com" "pw3" "admin123"
    (by decide) (by decide) (by decide) (by decide)

/-- C6: with the required fields present, registration answers the conflict
response exactly when the email is already present in the store, and in
that case the whole state (in particular the existing row) is unchanged. -/
theorem register_duplicate_email (env : Option String) (st : ServerState)
    (now : Nat) (name email password admin_code : String)
    (hn : name ≠ "") (he : email ≠ "") (hp : password ≠ "") :
    ((postRegister env st now name email password admin_code).2
        = RegisterResponse.conflictError
      ↔ st.users.any (fun u => u.email == email) = true) ∧
    (st.users.any (fun u => u.email == email) = true →
      (postRegister env st now name email password admin_code).1 = st) := by
  by_cases hdup : st.users.any (fun u => u.email == email) = true <;>
    simp [postRegister, hn, he, hp, hdup]

/-- C6 witness: re-registering Alice's email is a conflict and leaves the
state unchanged. -/
theorem register_duplicate_email_witness :
    ((postRegister none sampleState 20 "Eve" "a@x.com" "pw9" "").2
        = RegisterResponse.conflictError
      ↔ sampleState.users.any (fun u => u.email == "a@x.com") = true) ∧
    (sampleState.users.any (fun u => u.email == "a@x.com") = true →
      (postRegister none sampleState 20 "Eve" "a@x.com" "pw9" "").1
        = sampleState) :=
  register_duplicate_email none sampleState 20 "Eve" "a@x.com" "pw9" ""
    (by decide) (by decide) (by decide)

/-- C7: when no stored user matches the email with a passing hash
comparison, login answers the one generic failure response and leaves the
session unchanged, so two failing runs are indistinguishable whether or not
the email exists; with a passing comparison for the looked-up user, the
session is established with that user's data. -/
theorem login_credentials (st : ServerState) (sess : Option SessionUser)
    (email password : String) :
    ((∀ u, findUserByEmail st.users email = some u →
        bcryptCompare password u.password_hash = false) →
      postLogin st sess email password
        = (sess, LoginResponse.renderLogin "Invalid credentials.")) ∧
    (∀ u, findUserByEmail st.users email = some u →
      bcryptCompare password u.password_hash = true →
      postLogin st sess email password
        = (some (sessionOf u), LoginResponse.redirectDashboard)) ∧
    (∀ (st' : ServerState) (sess' : Option SessionUser)
        (email' password' : String),
      (∀ u, findUserByEmail st.users email = some u →
        bcryptCompare password u.password_hash = false) →
      (∀ u, findUserByEmail st'.users email' = some u →
        bcryptCompare password' u.password_hash = false) →
      (postLogin st sess email password).2
        = (postLogin st' sess' email' password').2) := by
  have key : ∀ (t : ServerState) (s : Option SessionUser) (e p : String),
      (∀ u, findUserByEmail t.users e = some u →
        bcryptCompare p u.password_hash = false) →
      postLogin t s e p = (s, LoginResponse.renderLogin "Invalid credentials.") := by
    intro t s e p hfail
    unfold postLogin
    cases hu : findUserByEmail t.users e with
    | none => rfl
    | some u => simp [hfail u hu]
  refine ⟨key st sess email password, ?_, ?_⟩
  · intro u hu hok
    unfold postLogin
    rw [hu]
    simp [hok]
  · intro st' sess' email' password' h1 h2
    rw [key st sess email password h1, key st' sess' email' password' h2]

/-- C7 witness: a wrong password for Alice and a non-existent email both
yield the same generic response, and the correct password logs Alice in. -/
theorem login_credentials_witness :
    postLogin sampleState none "a@x.com" "pw1"
      = (some (sessionOf aliceRow), LoginResponse.redirectDashboard) :=
  (login_credentials sampleState none "a@x.com" "pw1").2.1 aliceRow
    (by decide) (by decide)

/-- C8: the session record established by a successful login holds exactly
the user's id, name, role and email; after every request the session is
either untouched, destroyed, or exactly such a four-field record of a
stored user; and the record is a function of those four columns alone, so
neither the password nor its hash can flow into the session. -/
theorem session_never_holds_password (env : Option String) (now : Nat)
    (st : ServerState) (sess : Option SessionUser) (r : Request) :
    (∀ email password u, findUserByEmail st.users email = some u →
      bcryptCompare password u.password_hash = true →
      (postLogin st sess email password).1
        = some { id := u.id, name := u.name, role := u.role,
                 email := u.email }) ∧
    ((step env now st sess r).2 = sess ∨ (step env now st sess r).2 = none ∨
      ∃ u, u ∈ st.users ∧ (step env now st sess r).2 = some (sessionOf u)) ∧
    (∀ u v : User, u.id = v.id → u.name = v.name → u.role = v.role →
      u.email = v.email → sessionOf u = sessionOf v) := by
  refine ⟨?_, ?_, ?_⟩
  · intro email password u hu hok
    unfold postLogin
    rw [hu]
    simp [hok, sessionOf]
  · cases r with
    | register n e p a => exact Or.inl rfl
    | login e p =>
      cases hu : findUserByEmail st.users e with
      | none => exact Or.inl (by simp [step, postLogin, hu])
      | some u =>
        by_cases hok : bcryptCompare p u.password_hash = true
        · exact Or.inr (Or.inr ⟨u, List.mem_of_find?_eq_some hu,
            by simp [step, postLogin, hu, hok]⟩)
        · exact Or.inl (by simp [step, postLogin, hu, hok])
    | logout => exact Or.inr (Or.inl rfl)
    | submit body files =>
      cases sess with
      | none => exact Or.inr (Or.inl rfl)
      | some u => exact Or.inl rfl
    | edit sid body files =>
      cases sess with
      | none => exact Or.inr (Or.inl rfl)
      | some u => exact Or.inl rfl
    | makeAdmin target =>
      cases sess with
      | none => exact Or.inl rfl
      | some u =>
        by_cases hrole : u.role = "admin" <;> simp [step, hrole]
  · intro u v h1 h2 h3 h4
    simp [sessionOf, h1, h2, h3, h4]

/-- C8 witness: logging Alice in stores exactly her id, name, role and
email in the session. -/
theorem session_never_holds_password_witness :
    (postLogin sampleState none "a@x.com" "pw1").1
      = some { id := aliceRow.id, name := aliceRow.name,
               role := aliceRow.role, email := aliceRow.email } :=
  (session_never_holds_password none 0 sampleState none Request.logout).1
    "a@x.com" "pw1" aliceRow (by decide) (by decide)

theorem find?_map_of_pred_eq {α : Type} (p : α → Bool) (g : α → α)
    (hg : ∀ a, p (g a) = p a) (l : List α) :
    (l.map g).find? p = (l.find? p).map g := by
  induction l with
  | nil => rfl
  | cons a l ih =>
    rw [List.map_cons]
    by_cases hp : p a = true
    · rw [List.find?_cons_of_pos _ ((hg a).trans hp),
        List.find?_cons_of_pos _ hp]
      rfl
    · have hp' : ¬p (g a) = true := by simp [hg a, hp]
      rw [List.find?_cons_of_neg _ hp', List.find?_cons_of_neg _ hp, ih]

theorem findSubmission_runUpdate (subs : List Submission) (sid uid : Nat)
    (body : SubmitBody) (rp : Option String) (tf : List String) :
    findSubmission (runUpdate subs sid uid body rp tf) sid uid
      = (findSubmission subs sid uid).map (updateSubmissionRow body rp tf) := by
  unfold findSubmission runUpdate
  rw [find?_map_of_pred_eq]
  · cases hf : subs.find? (fun s => s.id == sid && s.user_id == uid) with
    | none => rfl
    | some a =>
      have hp := List.find?_some hf
      show some (if (a.id == sid && a.user_id == uid) = true
                 then updateSubmissionRow body rp tf a else a)
        = some (updateSubmissionRow body rp tf a)
      rw [if_pos hp]
  · intro a
    by_cases hp : (a.id == sid && a.user_id == uid) = true
    · rw [if_pos hp]
      rfl
    · rw [if_neg hp]

theorem not_mem_deleteFromDisk (disk : List String) (name : String) :
    name ∉ deleteFromDisk disk name := by
  simp [deleteFromDisk, List.mem_filter]

theorem foldl_deleteFromDisk_subset (old : List String) :
    ∀ (disk : List String) (x : String),
      x ∈ old.foldl deleteFromDisk disk → x ∈ disk := by
  induction old with
  | nil =>
    intro disk x hx
    simpa using hx
  | cons a rest ih =>
    intro disk x hx
    simp only [List.foldl_cons] at hx
    exact List.mem_of_mem_filter (ih _ x hx)

theorem not_mem_foldl_deleteFromDisk (old : List String) :
    ∀ (disk : List String) (f : String),
      f ∈ old → f ∉ old.foldl deleteFromDisk disk := by
  induction old with
  | nil =>
    intro disk f hf
    cases hf
  | cons a rest ih =>
    intro disk f hf hcontra
    simp only [List.foldl_cons] at hcontra
    rcases List.mem_cons.mp hf with rfl | hmem
    · exact not_mem_deleteFromDisk disk f
        (foldl_deleteFromDisk_subset rest _ f hcontra)
    · exact ih _ f hmem hcontra

theorem postEdit_success (st : ServerState) (sess : SessionUser) (sid : Nat)
    (body : SubmitBody) (files : UploadedFiles) (ex : Submission)
    (hfind : findSubmission st.submissions sid sess.id = some ex)
    (hd : body.race_date ≠ "") (ht : body.race_time ≠ "")
    (hs : body.series ≠ "") :
    postEdit st sess sid body files
      = ({ users := st.users,
           submissions := runUpdate st.submissions sid sess.id body
             (match files.replay with
              | some newName => some newName
              | none => ex.replay_file)
             (if files.telemetry.isEmpty then ex.telemetry_files
              else files.telemetry),
           replayFiles :=
             match files.replay with
             | some _ =>
               match ex.replay_file with
               | some old =>
                 deleteFromDisk (st.replayFiles ++ files.replay.toList) old
               | none => st.replayFiles ++ files.replay.toList
             | none => st.replayFiles ++ files.replay.toList,
           telemetryFiles :=
             if files.telemetry.isEmpty then
               st.telemetryFiles ++ files.telemetry
             else
               ex.telemetry_files.foldl deleteFromDisk
                 (st.telemetryFiles ++ files.telemetry) },
         SubmitResponse.redirectDashboard) := by
  simp only [postEdit, storeUploads, hfind]
  rw [if_neg (by push_neg; exact ⟨hd, ht, hs⟩)]

/-- C1: when no submissions row matches both the path id and the session
user's id, the edit request answers 404 and leaves every submissions row
untouched; moreover, whatever the request, a submission owned by a
different user is never modified (the UPDATE is keyed by the compound
predicate). -/
theorem edit_unauthorized_not_found (st : ServerState) (sess : SessionUser)
    (sid : Nat) (body : SubmitBody) (files : UploadedFiles)
    (h : findSubmission st.submissions sid sess.id = none) :
    ((postEdit st sess sid body files).2 = SubmitResponse.notFound ∧
     (postEdit st sess sid body files).1.submissions = st.submissions) ∧
    ∀ (body' : SubmitBody) (files' : UploadedFiles) (s : Submission),
      s ∈ st.submissions → s.user_id ≠ sess.id →
      s ∈ (postEdit st sess sid body' files').1.submissions := by
  constructor
  · constructor
    · simp [postEdit, storeUploads, h]
    · simp [postEdit, storeUploads, h]
  · intro body' files' s hmem huser
    cases hf : findSubmission st.submissions sid sess.id with
    | none => simpa [postEdit, storeUploads, hf] using hmem
    | some ex =>
      simp only [postEdit, storeUploads, hf]
      split
      · simpa using hmem
      · simp only [runUpdate]
        refine List.mem_map.mpr ⟨s, hmem, ?_⟩
        have hcond : ¬((s.id == sid && s.user_id == sess.id) = true) := by
          simp [huser]
        rw [if_neg hcond]

/-- C1 witness: Alice editing Bob's submission (id 2) receives 404. -/
theorem edit_unauthorized_not_found_witness :
    (postEdit sampleState (sessionOf aliceRow) 2 sampleBody newFiles).2
      = SubmitResponse.notFound :=
  (edit_unauthorized_not_found sampleState (sessionOf aliceRow) 2 sampleBody
    newFiles (by decide)).1.1

/-- C2: a successful edit that uploads at least one telemetry file replaces
the stored telemetry reference list wholesale by exactly the uploaded
filenames in order, deletes every previously referenced telemetry file from
storage, and (for fresh generated names) no previously attached filename
remains referenced. -/
theorem edit_telemetry_wholesale (st : ServerState) (sess : SessionUser)
    (sid : Nat) (body : SubmitBody) (files : UploadedFiles) (ex : Submission)
    (hfind : findSubmission st.submissions sid sess.id = some ex)
    (hd : body.race_date ≠ "") (ht : body.race_time ≠ "")
    (hs : body.series ≠ "") (htel : files.telemetry ≠ []) :
    (postEdit st sess sid body files).2 = SubmitResponse.redirectDashboard ∧
    (findSubmission (postEdit st sess sid body files).1.submissions sid
        sess.id).map Submission.telemetry_files = some files.telemetry ∧
    (∀ f ∈ ex.telemetry_files,
      f ∉ (postEdit st sess sid body files).1.telemetryFiles) ∧
    (∀ f ∈ ex.telemetry_files, f ∉ files.telemetry →
      ∀ l, (findSubmission (postEdit st sess sid body files).1.submissions
              sid sess.id).map Submission.telemetry_files = some l →
        f ∉ l) := by
  have hemp : files.telemetry.isEmpty = false := by
    cases hft : files.telemetry with
    | nil => exact absurd hft htel
    | cons a l => rfl
  rw [postEdit_success st sess sid body files ex hfind hd ht hs]
  refine ⟨rfl, ?_, ?_, ?_⟩
  · simp [findSubmission_runUpdate, hfind, hemp, updateSubmissionRow]
  · intro f hf
    simp only [hemp]
    show f ∉ ex.telemetry_files.foldl deleteFromDisk
      (st.telemetryFiles ++ files.telemetry)
    exact not_mem_foldl_deleteFromDisk ex.telemetry_files _ f hf
  · intro f hf hnot l hl
    simp [findSubmission_runUpdate, hfind, hemp, updateSubmissionRow] at hl
    rw [hl] at hnot
    exact hnot

/-- C2 witness: after Alice's edit with one new telemetry file, the old
telemetry file is gone from storage. -/
theorem edit_telemetry_wholesale_witness :
    "10-t1.csv" ∉ (postEdit sampleState (sessionOf aliceRow) 1 sampleBody
      newFiles).1.telemetryFiles :=
  ((edit_telemetry_wholesale sampleState (sessionOf aliceRow) 1 sampleBody
      newFiles aliceSubmission (by decide) (by decide) (by decide)
      (by decide) (by decide)).2.2.1) "10-t1.csv" (by decide)

/-- C3: a successful edit that uploads a new replay deletes the previously
referenced replay file from storage, and the persisted row's replay_file
equals the newly generated filename. -/
theorem edit_replay_replacement (st : ServerState) (sess : SessionUser)
    (sid : Nat) (body : SubmitBody) (files : UploadedFiles) (ex : Submission)
    (newName old : String)
    (hfind : findSubmission st.submissions sid sess.id = some ex)
    (hd : body.race_date ≠ "") (ht : body.race_time ≠ "")
    (hs : body.series ≠ "") (hrep : files.replay = some newName)
    (hold : ex.replay_file = some old) :
    (postEdit st sess sid body files).2 = SubmitResponse.redirectDashboard ∧
    (findSubmission (postEdit st sess sid body files).1.submissions sid
        sess.id).map Submission.replay_file = some (some newName) ∧
    old ∉ (postEdit st sess sid body files).1.replayFiles := by
  rw [postEdit_success st sess sid body files ex hfind hd ht hs]
  refine ⟨rfl, ?_, ?_⟩
  · simp [findSubmission_runUpdate, hfind, hrep, updateSubmissionRow]
  · simp only [hrep, hold]
    exact not_mem_deleteFromDisk _ old

/-- C3 witness: after Alice's edit with a new replay upload, the old replay
file is gone from storage. -/
theorem edit_replay_replacement_witness :
    "10-old.rpy" ∉ (postEdit sampleState (sessionOf aliceRow) 1 sampleBody
      newFiles).1.replayFiles :=
  (edit_replay_replacement sampleState (sessionOf aliceRow) 1 sampleBody
      newFiles aliceSubmission "20-lap.rpy" "10-old.rpy" (by decide)
      (by decide) (by decide) (by decide) (by decide) (by decide)).2.2

/-- C4: on a successful edit, for each kind of file with no new upload, the
persisted row keeps the existing reference(s) unchanged and the storage
directory of that kind is left exactly as it was. -/
theorem edit_omitted_files_preserved (st : ServerState) (sess : SessionUser)
    (sid : Nat) (body : SubmitBody) (files : UploadedFiles) (ex : Submission)
    (hfind : findSubmission st.submissions sid sess.id = some ex)
    (hd : body.race_date ≠ "") (ht : body.race_time ≠ "")
    (hs : body.series ≠ "") :
    (files.replay = none →
      (findSubmission (postEdit st sess sid body files).1.submissions sid
          sess.id).map Submission.replay_file = some ex.replay_file ∧
      (postEdit st sess sid body files).1.replayFiles = st.replayFiles) ∧
    (files.telemetry = [] →
      (findSubmission (postEdit st sess sid body files).1.submissions sid
          sess.id).map Submission.telemetry_files = some ex.telemetry_files ∧
      (postEdit st sess sid body files).1.telemetryFiles
        = st.telemetryFiles) := by
  rw [postEdit_success st sess sid body files ex hfind hd ht hs]
  constructor
  · intro hrep
    constructor
    · simp [findSubmission_runUpdate, hfind, hrep, updateSubmissionRow]
    · simp [hrep]
  · intro htel
    have hemp : files.telemetry.isEmpty = true := by rw [htel]; rfl
    constructor
    · simp [findSubmission_runUpdate, hfind, hemp, updateSubmissionRow]
    · simp [hemp, htel]

/-- C4 witness: editing without uploads leaves the replay directory
unchanged. -/
theorem edit_omitted_files_preserved_witness :
    (postEdit sampleState (sessionOf aliceRow) 1 sampleBody
      noFiles).1.replayFiles = sampleState.replayFiles :=
  ((edit_omitted_files_preserved sampleState (sessionOf aliceRow) 1
      sampleBody noFiles aliceSubmission (by decide) (by decide) (by decide)
      (by decide)).1 (by decide)).2

/-- C10: every edit leaves id, user_id and created_at of every submissions
row unchanged, and a successful edit rewrites exactly race_date, race_time,
series, is_protest, protest_text, replay_file and telemetry_files of the
matched row. -/
theorem edit_full_row_update_frame (st : ServerState) (sess : SessionUser)
    (sid : Nat) (body : SubmitBody) (files : UploadedFiles) :
    ((postEdit st sess sid body files).1.submissions.map
        (fun s => (s.id, s.user_id, s.created_at))
      = st.submissions.map (fun s => (s.id, s.user_id, s.created_at))) ∧
    (∀ ex, findSubmission st.submissions sid sess.id = some ex →
      body.race_date ≠ "" → body.race_time ≠ "" → body.series ≠ "" →
      (findSubmission (postEdit st sess sid body files).1.submissions sid
          sess.id).map (fun s => (s.user_id, s.created_at))
        = some (ex.user_id, ex.created_at) ∧
      (findSubmission (postEdit st sess sid body files).1.submissions sid
          sess.id).map
          (fun s => (s.race_date, s.race_time, s.series, s.is_protest,
                     s.protest_text, s.replay_file, s.telemetry_files))
        = some (body.race_date, body.race_time, body.series,
            (if body.is_protest then 1 else 0),
            (if body.protest_text = "" then none
             else some body.protest_text),
            (match files.replay with
             | some newName => some newName
             | none => ex.replay_file),
            (if files.telemetry.isEmpty then ex.telemetry_files
             else files.telemetry))) := by
  constructor
  · cases hf : findSubmission st.submissions sid sess.id with
    | none => simp [postEdit, storeUploads, hf]
    | some ex =>
      simp only [postEdit, storeUploads, hf]
      split
      · rfl
      · simp only [runUpdate, List.map_map]
        apply List.map_congr_left
        intro s _
        by_cases hcond : (s.id == sid && s.user_id == sess.id) = true
        · simp [Function.comp, hcond, updateSubmissionRow]
        · simp [Function.comp, hcond]
  · intro ex hf hd ht hs
    rw [postEdit_success st sess sid body files ex hf hd ht hs]
    constructor
    · simp [findSubmission_runUpdate, hf, updateSubmissionRow]
    · simp [findSubmission_runUpdate, hf, updateSubmissionRow]

/-- C10 witness: after Alice's successful edit, the row keeps her user id
and the original creation timestamp. -/
theorem edit_full_row_update_frame_witness :
    (findSubmission (postEdit sampleState (sessionOf aliceRow) 1 sampleBody
        newFiles).1.submissions 1 (sessionOf aliceRow).id).map
        (fun s => (s.user_id, s.created_at))
      = some (aliceSubmission.user_id, aliceSubmission.created_at) :=
  ((edit_full_row_update_frame sampleState (sessionOf aliceRow) 1 sampleBody
      newFiles).2 aliceSubmission (by decide) (by decide) (by decide)
      (by decide)).1

/-- Character class of the sanitizing regex in the multer filename
callback: [A-Za-z0-9_.-] is kept, everything else is replaced. -/
def isSafeChar (c : Char) : Bool :=
  ('a' ≤ c && c ≤ 'z') || ('A' ≤ c && c ≤ 'Z') || ('0' ≤ c && c ≤ '9') ||
    c == '_' || c == '.' || c == '-'

/-- JS `originalname.replace(/[^a-zA-Z0-9_.-]/g, '_')`: every character
outside the class becomes an underscore. -/
def sanitizeName (s : String) : String :=
  ⟨s.data.map (fun c => if isSafeChar c then c else '_')⟩

/-- The multer diskStorage filename callback: the decimal value of
`Date.now()`, a dash, then the sanitized original name. -/
def generatedFilename (now : Nat) (originalname : String) : String :=
  Nat.repr now ++ "-" ++ sanitizeName originalname

theorem digitChar_safe (n : Nat) (h : n < 10) :
    isSafeChar (Nat.digitChar n) = true := by
  interval_cases n <;> rfl

theorem toDigitsCore_safe (fuel : Nat) :
    ∀ (n : Nat) (acc : List Char), (∀ c ∈ acc, isSafeChar c = true) →
      ∀ c ∈ Nat.toDigitsCore 10 fuel n acc, isSafeChar c = true := by
  induction fuel with
  | zero =>
    intro n acc hacc c hc
    exact hacc c hc
  | succ f ih =>
    intro n acc hacc c hc
    simp only [Nat.toDigitsCore] at hc
    have hd : isSafeChar (Nat.digitChar (n % 10)) = true :=
      digitChar_safe _ (Nat.mod_lt _ (by norm_num))
    have hcons : ∀ x ∈ Nat.digitChar (n % 10) :: acc, isSafeChar x = true := by
      intro x hx
      rcases List.mem_cons.mp hx with rfl | hxm
      · exact hd
      · exact hacc x hxm
    by_cases h0 : n / 10 = 0
    · rw [if_pos h0] at hc
      exact hcons c hc
    · rw [if_neg h0] at hc
      exact ih _ _ hcons c hc

/-- C9: the generated storage filename is the decimal creation timestamp,
a dash, and the original name with every character outside [A-Za-z0-9_.-]
replaced by an underscore; every character of the result lies in that
class, so in particular the filename holds no path separator and cannot
traverse out of the per-kind directory. -/
theorem generated_filename_no_traversal (now : Nat) (originalname : String) :
    generatedFilename now originalname
      = Nat.repr now ++ "-" ++
        ⟨originalname.data.map (fun c => if isSafeChar c then c else '_')⟩ ∧
    (∀ c ∈ (generatedFilename now originalname).data, isSafeChar c = true) ∧
    (∀ c ∈ (generatedFilename now originalname).data,
      c ≠ '/' ∧ c ≠ '\\') := by
  have hmain : ∀ c ∈ (generatedFilename now originalname).data,
      isSafeChar c = true := by
    intro c hc
    have hdata : (generatedFilename now originalname).data
        = (Nat.repr now).data ++ "-".data
            ++ (sanitizeName originalname).data := rfl
    rw [hdata] at hc
    rcases List.mem_append.mp hc with h1 | h2
    · rcases List.mem_append.mp h1 with hrepr | hdash
      · have hrepr' : c ∈ Nat.toDigitsCore 10 (now + 1) now [] := hrepr
        exact toDigitsCore_safe (now + 1) now []
          (by intro x hx; cases hx) c hrepr'
      · rcases List.mem_cons.mp hdash with rfl | hnil
        · rfl
        · cases hnil
    · have h2' : c ∈ originalname.data.map
          (fun c => if isSafeChar c then c else '_') := h2
      rcases List.mem_map.mp h2' with ⟨a, _, rfl⟩
      by_cases ha : isSafeChar a = true
      · rw [if_pos ha]
        exact ha
      · rw [if_neg ha]
        rfl
  refine ⟨rfl, hmain, ?_⟩
  intro c hc
  have h := hmain c hc
  constructor
  · intro heq
    rw [heq] at h
    exact absurd h (by decide)
  · intro heq
    rw [heq] at h
    exact absurd h (by decide)

/-- C9 witness: a concrete character of the generated filename for a name
holding a space and a slash is in the safe class. -/
theorem generated_filename_no_traversal_witness :
    isSafeChar 'l' = true :=
  (generated_filename_no_traversal 17 "my lap/1.rpy").2.1 'l' (by decide)
